import Mathlib

/-!
Shallow embedding of the online-bookstore repository (src/models.py and
src/app.py) and proofs of the frozen claims about it.

Python strings are modelled as Lean `String`; the handful of Python string
operations the code uses (`strip`, `lower`, `upper`, `endswith`, `isdigit`)
are given executable definitions over the underlying character list.
Python `float` prices and totals are modelled as exact rationals `ℚ`;
Python `int` quantities as `Int`.  A Python value that may be `None` (a
missing form field, an unset argument) is an `Option`.  A quantity argument
that may fail `int(...)` conversion is `Option Int`, `none` standing for an
unparseable value.  Python dicts keyed by strings are association lists in
insertion order.
-/

/-- Python `str.strip()` restricted to the characters the code feeds it:
drop leading and trailing whitespace. -/
def pyStrip (s : String) : String :=
  ⟨((s.data.dropWhile Char.isWhitespace).reverse.dropWhile Char.isWhitespace).reverse⟩

/-- Python `str.lower()` (ASCII, which is all the code uses). -/
def pyLower (s : String) : String := ⟨s.data.map Char.toLower⟩

/-- Python `str.upper()` (ASCII). -/
def pyUpper (s : String) : String := ⟨s.data.map Char.toUpper⟩

/-- Python `str.endswith(suffix)`. -/
def pyEndsWith (s suffix : String) : Bool := suffix.data.isSuffixOf s.data

/-- Python `str.isdigit()`: nonempty and all digits. -/
def pyIsDigit (s : String) : Bool := !s.data.isEmpty && s.data.all Char.isDigit

/-- Python `str.replace(" ", "")`: drop every space character. -/
def pyDropSpaces (s : String) : String := ⟨s.data.filter (· ≠ ' ')⟩

/-- Python `(value or "")` for an optional string: `None` becomes `""`. -/
def pyOrEmpty (v : Option String) : String := v.getD ""

/-- `models.sanitize_text`: `(value or "").strip()`. -/
def sanitize_text (value : Option String) : String := pyStrip (pyOrEmpty value)

/-- Character class `[A-Za-z0-9._%+\-]` of the email regex (local part). -/
def emailLocalChar (c : Char) : Bool :=
  c.isAlpha || c.isDigit || c = '.' || c = '_' || c = '%' || c = '+' || c = '-'

/-- Character class `[A-Za-z0-9.\-]` of the email regex (domain part). -/
def emailDomainChar (c : Char) : Bool :=
  c.isAlpha || c.isDigit || c = '.' || c = '-'

/-- `models.is_valid_email`: strip, then match the anchored regex
`^[A-Za-z0-9._%+\-]+@[A-Za-z0-9.\-]+\.[A-Za-z]{2,}$`.  The regex matches
exactly when the string splits as `local ++ "@" ++ domain ++ "." ++ tld`
with a nonempty local part over its class, a nonempty domain part over its
class, and an alphabetic top-level part of length ≥ 2; since the top-level
part may not contain a dot, the split point is the last dot after the `@`. -/
def is_valid_email (email : Option String) : Bool :=
  let cs := (pyStrip (pyOrEmpty email)).data
  let localPart := cs.takeWhile (· ≠ '@')
  match cs.dropWhile (· ≠ '@') with
  | [] => false
  | _ :: domainAll =>
    let rev := domainAll.reverse
    let tldRev := rev.takeWhile (· ≠ '.')
    match rev.dropWhile (· ≠ '.') with
    | [] => false
    | _ :: domRev =>
      !localPart.isEmpty && localPart.all emailLocalChar &&
      !domRev.isEmpty && domRev.all emailDomainChar &&
      decide (2 ≤ tldRev.length) && tldRev.all Char.isAlpha

/-- `models.Book`: `{title, category, price, image}`; price is a float in
the source, modelled exactly as a rational. -/
structure Book where
  title : String
  category : String
  price : ℚ
  image : String
deriving DecidableEq, Repr

/-- `models.CartItem`: a book reference plus an integer quantity. -/
structure CartItem where
  book : Book
  quantity : Int
deriving DecidableEq, Repr

/-- `CartItem.get_total_price`: `book.price * quantity`. -/
def CartItem.get_total_price (it : CartItem) : ℚ := it.book.price * it.quantity

/-- `models.Cart.items`: the dict `title -> CartItem` in insertion order.
Every stored item's key is `item.book.title`, so the dict is represented by
the list of its values. -/
abbrev Cart := List CartItem

/-- Membership test `book.title in self.items` of the Python dict. -/
def Cart.containsTitle (c : Cart) (t : String) : Bool :=
  List.any c (fun it => it.book.title == t)

/-- Dict lookup `self.items[t]`. -/
def Cart.findTitle (c : Cart) (t : String) : Option CartItem :=
  List.find? (fun it => it.book.title == t) c

/-- `try: q = int(quantity) except: q = 1` — `none` is an unparseable value. -/
def parseQty (quantity : Option Int) : Int := quantity.getD 1

/-- The quantity `add_book` actually adds: parse, then `if q < 1: q = 1`. -/
def clampedQty (quantity : Option Int) : Int :=
  if parseQty quantity < 1 then 1 else parseQty quantity

/-- `Cart.add_book`: parse the quantity, clamp it to at least 1, then
accumulate onto an existing line for the book's title or append a new line. -/
def Cart.add_book (c : Cart) (book : Book) (quantity : Option Int) : Cart :=
  let q := clampedQty quantity
  if c.containsTitle book.title then
    List.map (fun it => if it.book.title == book.title
                        then { it with quantity := it.quantity + q } else it) c
  else
    List.append c [⟨book, q⟩]

/-- `Cart.remove_book`: delete the line for the title if present. -/
def Cart.remove_book (c : Cart) (book_title : String) : Cart :=
  List.filter (fun it => !(it.book.title == book_title)) c

/-- `Cart.update_quantity`: parse the quantity (unparseable becomes 1); if
the title is present, delete the line when the quantity is ≤ 0, otherwise
overwrite the stored quantity; if absent, do nothing. -/
def Cart.update_quantity (c : Cart) (book_title : String) (quantity : Option Int) : Cart :=
  let q := parseQty quantity
  if c.containsTitle book_title then
    if q ≤ 0 then
      List.filter (fun it => !(it.book.title == book_title)) c
    else
      List.map (fun it => if it.book.title == book_title
                          then { it with quantity := q } else it) c
  else c

/-- `Cart.get_total_price`: `sum(item.book.price * item.quantity for ...)`. -/
def Cart.get_total_price (c : Cart) : ℚ :=
  (List.map (fun it => it.book.price * (it.quantity : ℚ)) c).sum

/-- `Cart.get_total_items`: `sum(item.quantity for ...)`. -/
def Cart.get_total_items (c : Cart) : Int :=
  (List.map (fun it => it.quantity) c).sum

/-- `Cart.clear`. -/
def Cart.clear (_c : Cart) : Cart := []

/-- `Cart.get_items`: the list of line items. -/
def Cart.get_items (c : Cart) : List CartItem := c

/-- `Cart.is_empty`. -/
def Cart.is_empty (c : Cart) : Bool := List.isEmpty c

/-- The four cart-mutating operations reachable from the routes. -/
inductive CartOp where
  | add (book : Book) (quantity : Option Int)
  | update (title : String) (quantity : Option Int)
  | remove (title : String)
  | clear

/-- Apply one operation to a cart. -/
def applyOp (c : Cart) : CartOp → Cart
  | .add b q => Cart.add_book c b q
  | .update t q => Cart.update_quantity c t q
  | .remove t => Cart.remove_book c t
  | .clear => Cart.clear c

/-- The cart reached from the empty cart by a sequence of operations. -/
def applyOps (ops : List CartOp) : Cart := ops.foldl applyOp []

/-- Every stored line item has quantity at least 1. -/
def quantitiesPositive (c : Cart) : Prop := ∀ it ∈ c, 1 ≤ it.quantity

/-- The cart built from the empty cart by a list of `add_book` calls. -/
def cartOfAdds (ops : List (Book × Option Int)) : Cart :=
  ops.foldl (fun c p => Cart.add_book c p.1 p.2) []

/-- Every item's book is priced according to the title-indexed price table
`f` (in the application, titles identify catalog books, so such an `f`
exists). -/
def PricedBy (f : String → ℚ) (c : Cart) : Prop :=
  ∀ it ∈ c, it.book.price = f it.book.title

/-- The list of titles stored in the cart (the dict keys). -/
def cartTitles (c : Cart) : List String := List.map (fun it => it.book.title) c

/-- Model of `werkzeug.security.generate_password_hash`, the trusted external
primitive the spec delegates hashing to.  Its contract — verification
succeeds exactly for the hashed password — is modelled by an injective
tagging of the password. -/
def generate_password_hash (p : String) : String :=
  "pbkdf2-sha256$" ++ p

/-- Model of `werkzeug.security.check_password_hash`: the candidate matches
the stored hash exactly when hashing it reproduces the hash. -/
def check_password_hash (stored p : String) : Bool :=
  stored == generate_password_hash p

/-- The `shipping_info` dict built by `process_checkout`. -/
structure ShippingInfo where
  name : String
  email : String
  address : String
  city : String
  zip_code : String
deriving DecidableEq, Repr

/-- The `payment_info` dict stored on an order: method + transaction id. -/
structure PaymentDetails where
  method : String
  transaction_id : Option String
deriving DecidableEq, Repr

/-- `models.Order`: immutable snapshot created at checkout.  `order_date`
(`datetime.now()`) is an abstract timestamp supplied by the caller. -/
structure Order where
  order_id : String
  user_email : String
  items : List CartItem
  shipping_info : ShippingInfo
  payment_info : PaymentDetails
  total_amount : ℚ
  order_date : Nat
  status : String
deriving DecidableEq, Repr

/-- `Order.__init__` with `status = "Confirmed"`. -/
def Order.make (order_id user_email : String) (items : List CartItem)
    (shipping : ShippingInfo) (payment : PaymentDetails) (total_amount : ℚ)
    (now : Nat) : Order :=
  { order_id := order_id, user_email := user_email, items := items,
    shipping_info := shipping, payment_info := payment,
    total_amount := total_amount, order_date := now, status := "Confirmed" }

/-- `models.User`: email (stripped), password hash, name, address, orders. -/
structure User where
  email : String
  password_hash : String
  name : String
  address : String
  orders : List Order
deriving DecidableEq, Repr

/-- `User.set_password`: strip; a stripped password shorter than 4
characters is replaced by the fixed fallback `"xxxx"`; store its hash. -/
def User.set_password (u : User) (raw_password : Option String) : User :=
  let r := pyStrip (pyOrEmpty raw_password)
  let r := if r.length < 4 then "xxxx" else r
  { u with password_hash := generate_password_hash r }

/-- `User.check_password`: hash-verify the stripped candidate. -/
def User.check_password (u : User) (raw_password : Option String) : Bool :=
  check_password_hash u.password_hash (pyStrip (pyOrEmpty raw_password))

/-- `User.__init__`. -/
def User.make (email password : Option String) (name address : String) : User :=
  User.set_password
    { email := pyStrip (pyOrEmpty email), password_hash := "",
      name := name, address := address, orders := [] }
    password

/-- Stable insertion of an order into a date-sorted list (model of the
stable `list.sort(key=order_date)` after an append). -/
def insertByDate (o : Order) : List Order → List Order
  | [] => [o]
  | x :: xs => if o.order_date < x.order_date then o :: x :: xs
               else x :: insertByDate o xs

/-- `User.add_order`: append then re-sort chronologically (stable). -/
def User.add_order (u : User) (o : Order) : User :=
  { u with orders := (u.orders ++ [o]).foldl (fun acc x => insertByDate x acc) [] }

/-- Result of the POST branch of `app.register`. -/
inductive RegisterResult where
  | ok (email : String)
  | error (message : String)
deriving DecidableEq, Repr

/-- The process-wide `users` dict: lowercased email -> User, insertion order. -/
abbrev UsersMap := List (String × User)

/-- `app.register` (POST): sanitize, reject missing fields, invalid email
format, or a duplicate lowercased-email key; otherwise create the user and
store it under the lowercased email. -/
def register (users : UsersMap) (email password name address : Option String) :
    RegisterResult × UsersMap :=
  let email := sanitize_text email
  let password := pyOrEmpty password
  let name := sanitize_text name
  let address := sanitize_text address
  if email = "" ∨ password = "" ∨ name = "" then
    (.error "Please fill in all required fields.", users)
  else if !(is_valid_email (some email)) then
    (.error "Please enter a valid email address.", users)
  else
    let key := pyLower email
    if users.any (fun kv => kv.1 == key) then
      (.error "An account with this email already exists.", users)
    else
      (.ok email, users ++ [(key, User.make (some email) (some password) name address)])

/-- The `payment_info` dict handed to `PaymentGateway.process_payment`. -/
structure PaymentInfo where
  payment_method : Option String
  card_number : Option String
  expiry_date : Option String
  cvv : Option String
  paypal_email : Option String
deriving DecidableEq, Repr

/-- `PaymentGateway._valid_card_number`: drop spaces, all digits, length
between 12 and 19. -/
def valid_card_number (num : Option String) : Bool :=
  let n := pyDropSpaces (pyOrEmpty num)
  pyIsDigit n && decide (12 ≤ n.length) && decide (n.length ≤ 19)

/-- `PaymentGateway._valid_expiry`: the regex
`^(0[1-9]|1[0-2])\/(\d{2}|\d{4})$` on the stripped string. -/
def valid_expiry (exp : Option String) : Bool :=
  match (pyStrip (pyOrEmpty exp)).data with
  | m1 :: m2 :: '/' :: rest =>
    ((m1 == '0' && m2.isDigit && !(m2 == '0')) ||
     (m1 == '1' && (m2 == '0' || m2 == '1' || m2 == '2'))) &&
    (rest.length == 2 || rest.length == 4) && rest.all Char.isDigit
  | _ => false

/-- `PaymentGateway._valid_cvv`: stripped, all digits, length 3 or 4. -/
def valid_cvv (cvv : Option String) : Bool :=
  let c := pyStrip (pyOrEmpty cvv)
  pyIsDigit c && decide (3 ≤ c.length) && decide (c.length ≤ 4)

/-- Return value of `PaymentGateway.process_payment`. -/
structure PaymentResult where
  success : Bool
  message : String
  transaction_id : Option String
deriving DecidableEq, Repr

/-- `PaymentGateway.process_payment`; the randomly generated transaction id
of the success path is supplied as `txn`. -/
def process_payment (payment_info : PaymentInfo) (txn : String) : PaymentResult :=
  let method := pyLower (pyStrip (pyOrEmpty payment_info.payment_method))
  if method = "credit_card" then
    let card_number := pyStrip (pyOrEmpty payment_info.card_number)
    let expiry := pyStrip (pyOrEmpty payment_info.expiry_date)
    let cvv := pyStrip (pyOrEmpty payment_info.cvv)
    if !(valid_card_number (some card_number) && valid_expiry (some expiry) &&
         valid_cvv (some cvv)) then
      ⟨false, "Payment failed: invalid card details.", none⟩
    else if pyEndsWith card_number "1111" then
      ⟨false, "Payment failed: Invalid card number.", none⟩
    else
      ⟨true, "Payment processed successfully", some txn⟩
  else if method = "paypal" then
    let paypal_email := pyStrip (pyOrEmpty payment_info.paypal_email)
    if !(is_valid_email (some paypal_email)) then
      ⟨false, "Payment failed: invalid PayPal email.", none⟩
    else
      ⟨true, "Payment processed successfully", some txn⟩
  else
    ⟨false, "Payment failed: unsupported payment method.", none⟩

/-- The process-wide `orders` dict: order id -> Order, insertion order. -/
abbrev OrdersMap := List (String × Order)

/-- The shared mutable state a checkout request reads and writes: the
`users` and `orders` dicts and the single global cart. -/
structure AppState where
  users : UsersMap
  orders : OrdersMap
  cart : Cart
deriving DecidableEq, Repr

/-- The POST form fields `process_checkout` reads (missing field = `none`). -/
structure CheckoutForm where
  name : Option String
  email : Option String
  address : Option String
  city : Option String
  zip_code : Option String
  payment_method : Option String
  card_number : Option String
  expiry_date : Option String
  cvv : Option String
  paypal_email : Option String
  discount_code : Option String
deriving DecidableEq, Repr

/-- How the request ends: a redirect back with an error flash, or a
redirect to the confirmation page of the new order. -/
inductive CheckoutOutcome where
  | failure (message : String)
  | success (order_id : String)
deriving DecidableEq, Repr

/-- Whether the outcome is a failure redirect. -/
def CheckoutOutcome.isFailure : CheckoutOutcome → Bool
  | .failure _ => true
  | .success _ => false

/-- Outcome, resulting shared state, and flash messages of one request. -/
structure CheckoutResult where
  outcome : CheckoutOutcome
  state : AppState
  flashes : List String
deriving DecidableEq, Repr

/-- The fixed `DISCOUNTS` table: code -> rate. -/
def DISCOUNTS (code : String) : Option ℚ :=
  if code = "SAVE10" then some (1/10)
  else if code = "WELCOME20" then some (2/10)
  else none

/-- The discount block of `process_checkout`: the (upper-cased, stripped)
code is looked up; a hit subtracts `total * rate` and flashes a success
note, a miss on a nonempty code flashes a non-blocking error; the request
continues in every case.  Returns the new total and the flashes. -/
def apply_discount (code : String) (total : ℚ) : ℚ × List String :=
  if code = "" then (total, [])
  else match DISCOUNTS code with
    | some rate => (total - total * rate, ["Discount applied!"])
    | none => (total, ["Invalid discount code."])

/-- The early validation of `process_checkout` (before the discount block):
empty cart, the five required shipping fields in order, then email format.
Returns the first failure flash, if any. -/
def checkout_validate_shipping (st : AppState) (form : CheckoutForm) : Option String :=
  if Cart.is_empty st.cart then some "Your cart is empty!"
  else if sanitize_text form.name = "" then some "Please fill in the name field."
  else if sanitize_text form.email = "" then some "Please fill in the email field."
  else if sanitize_text form.address = "" then some "Please fill in the address field."
  else if sanitize_text form.city = "" then some "Please fill in the city field."
  else if sanitize_text form.zip_code = "" then some "Please fill in the zip code field."
  else if !(is_valid_email (some (sanitize_text form.email))) then
    some "Please enter a valid email address."
  else none

/-- The payment-field validation of `process_checkout` (after the discount
block): per-method required fields, else an unsupported-method failure. -/
def checkout_validate_payment (form : CheckoutForm) : Option String :=
  let m := pyLower (pyStrip (pyOrEmpty form.payment_method))
  if m = "credit_card" then
    if sanitize_text form.card_number = "" ∨ sanitize_text form.expiry_date = ""
        ∨ sanitize_text form.cvv = "" then
      some "Please fill in all credit card details."
    else none
  else if m = "paypal" then
    if sanitize_text form.paypal_email = ""
        ∨ !(is_valid_email (some (sanitize_text form.paypal_email))) then
      some "Please provide a valid PayPal email."
    else none
  else some "Please select a valid payment method."

/-- `current_user.add_order(order)` when a session user exists: the users
dict entry under the lowercased session email gets the order attached. -/
def users_after_order (users : UsersMap) (sessionEmail : Option String)
    (order : Order) : UsersMap :=
  match sessionEmail with
  | none => users
  | some e =>
    match List.find? (fun kv => kv.1 == pyLower e) users with
    | none => users
    | some _ =>
      users.map (fun kv => if kv.1 == pyLower e
        then (kv.1, User.add_order kv.2 order) else kv)

/-- The `payment_info` dict `process_checkout` assembles from the form. -/
def checkout_payment_info (form : CheckoutForm) : PaymentInfo :=
  { payment_method := some (pyLower (pyStrip (pyOrEmpty form.payment_method))),
    card_number := some (sanitize_text form.card_number),
    expiry_date := some (sanitize_text form.expiry_date),
    cvv := some (sanitize_text form.cvv),
    paypal_email := some (sanitize_text form.paypal_email) }

/-- The order `process_checkout` creates on success, with transaction id
`tid` (the gateway's) and order total `total` (post-discount). -/
def checkout_order (st : AppState) (form : CheckoutForm) (order_id : String)
    (tid : Option String) (now : Nat) (total : ℚ) : Order :=
  Order.make order_id (sanitize_text form.email) (Cart.get_items st.cart)
    ⟨sanitize_text form.name, sanitize_text form.email,
     sanitize_text form.address, sanitize_text form.city,
     sanitize_text form.zip_code⟩
    ⟨pyLower (pyStrip (pyOrEmpty form.payment_method)), tid⟩ total now

/-- The tail of `process_checkout` after the shipping validation and the
discount block: validate payment fields, run the mock gateway, and on
success record the order, attach it to the session user, and clear the
cart.  `d` is the (discounted total, discount flashes) pair produced by the
discount block. -/
def checkout_after_shipping (st : AppState) (sessionEmail : Option String)
    (form : CheckoutForm) (order_id txn : String) (now : Nat)
    (d : ℚ × List String) : CheckoutResult :=
  match checkout_validate_payment form with
  | some msg => ⟨.failure msg, st, d.2 ++ [msg]⟩
  | none =>
    let pr := process_payment (checkout_payment_info form) txn
    if pr.success then
      let order := checkout_order st form order_id pr.transaction_id now d.1
      ⟨.success order_id,
       ⟨users_after_order st.users sessionEmail order,
        st.orders ++ [(order_id, order)], Cart.clear st.cart⟩,
       d.2 ++ ["Payment successful! Your order has been confirmed."]⟩
    else
      ⟨.failure pr.message, st, d.2 ++ [pr.message]⟩

/-- `app.process_checkout`: validate shipping, apply the discount to the
cart total, then run the payment phase.  The generated order id,
transaction id and timestamp are supplied as `order_id`, `txn`, `now`. -/
def process_checkout (st : AppState) (sessionEmail : Option String)
    (form : CheckoutForm) (order_id txn : String) (now : Nat) : CheckoutResult :=
  match checkout_validate_shipping st form with
  | some msg => ⟨.failure msg, st, [msg]⟩
  | none =>
    checkout_after_shipping st sessionEmail form order_id txn now
      (apply_discount (pyUpper (pyStrip (pyOrEmpty form.discount_code)))
        (Cart.get_total_price st.cart))

/-- Concrete shared state for exercising the discount behaviour: one
line item, price 10, quantity 2 (cart total 20). -/
def c4State : AppState := ⟨[], [], [⟨⟨"B", "c", 10, "i"⟩, 2⟩]⟩

/-- Concrete valid checkout form, parameterized by the discount code. -/
def c4Form (dc : Option String) : CheckoutForm :=
  ⟨some "A", some "a@b.co", some "X", some "Y", some "1",
   some "credit_card", some "4242424242424242", some "12/25", some "123",
   none, dc⟩

/-- The order the concrete checkout records, parameterized by the total. -/
def c4Order (total : ℚ) : Order :=
  ⟨"OID", "a@b.co", [⟨⟨"B", "c", 10, "i"⟩, 2⟩], ⟨"A", "a@b.co", "X", "Y", "1"⟩,
   ⟨"credit_card", some "TXN"⟩, total, 0, "Confirmed"⟩

/-! ### Theorems -/

theorem containsTitle_eq_false_iff (c : Cart) (t : String) :
    Cart.containsTitle c t = false ↔ ∀ it ∈ c, it.book.title ≠ t := by
  simp [Cart.containsTitle]

theorem map_eq_self_of_no_match {c : Cart} {t : String}
    (h : ∀ it ∈ c, it.book.title ≠ t) (g : CartItem → CartItem) :
    List.map (fun it => if it.book.title == t then g it else it) c = c := by
  have h2 : ∀ it ∈ c, (if it.book.title == t then g it else it) = it := by
    intro it hm
    simp [h it hm]
  calc List.map (fun it => if it.book.title == t then g it else it) c
      = List.map id c := List.map_congr_left h2
    _ = c := List.map_id c

theorem filter_eq_self_of_no_match {c : Cart} {t : String}
    (h : ∀ it ∈ c, it.book.title ≠ t) :
    List.filter (fun it => !(it.book.title == t)) c = c := by
  rw [List.filter_eq_self]
  intro it hm
  simp [h it hm]

theorem clampedQty_of_ge_one {q : Int} (h : 1 ≤ q) : clampedQty (some q) = q := by
  simp only [clampedQty, parseQty, Option.getD_some]
  omega

theorem findTitle_map_set (t : String) (n : Int) (c : Cart) :
    Cart.findTitle
        (List.map (fun it => if it.book.title == t
          then { it with quantity := n } else it) c) t
      = Option.map (fun it => { it with quantity := n }) (Cart.findTitle c t) := by
  induction c with
  | nil => rfl
  | cons x rest ih =>
    simp only [List.map_cons, Cart.findTitle, List.find?_cons] at ih ⊢
    by_cases hx : x.book.title = t
    · simp [hx]
    · have hbx : (x.book.title == t) = false := by simp [hx]
      simp only [hbx, beq_iff_eq] at ih ⊢
      simpa [hbx] using ih

/-- C2: adding the same book twice accumulates: starting from a cart that has
no line for `b.title`, `add_book b q1` then `add_book b q2` (with `q1, q2 ≥ 1`)
leaves exactly one line for `b.title`, holding `b` with quantity `q1 + q2`;
and for any quantity below 1 or unparseable, `add_book` adds quantity 1. -/
theorem add_book_accumulates_and_clamps :
    (∀ (c : Cart) (b : Book) (q1 q2 : Int), 1 ≤ q1 → 1 ≤ q2 →
      Cart.containsTitle c b.title = false →
      List.countP (fun it => it.book.title == b.title)
          (Cart.add_book (Cart.add_book c b (some q1)) b (some q2)) = 1 ∧
      Cart.findTitle (Cart.add_book (Cart.add_book c b (some q1)) b (some q2)) b.title
        = some ⟨b, q1 + q2⟩) ∧
    (∀ (c : Cart) (b : Book) (q : Option Int),
      (q = none ∨ ∃ n, q = some n ∧ n < 1) →
      Cart.add_book c b q = Cart.add_book c b (some 1)) := by
  constructor
  · intro c b q1 q2 hq1 hq2 hfresh
    have hno : ∀ it ∈ c, it.book.title ≠ b.title :=
      (containsTitle_eq_false_iff c b.title).mp hfresh
    have h1 : Cart.add_book c b (some q1) = List.append c [⟨b, q1⟩] := by
      simp only [Cart.add_book, hfresh, Bool.false_eq_true, if_false,
        clampedQty_of_ge_one hq1]
    have hc1 : Cart.containsTitle (List.append c [⟨b, q1⟩]) b.title = true := by
      simp [Cart.containsTitle]
    have h2 : Cart.add_book (Cart.add_book c b (some q1)) b (some q2)
        = List.append c [⟨b, q1 + q2⟩] := by
      rw [h1]
      simp only [Cart.add_book, hc1, if_true, clampedQty_of_ge_one hq2]
      rw [List.append_eq, List.map_append, map_eq_self_of_no_match hno]
      simp
    rw [h2]
    constructor
    · rw [List.append_eq, List.countP_append]
      have : List.countP (fun it => it.book.title == b.title) c = 0 := by
        rw [List.countP_eq_zero]
        intro it hm
        simp [hno it hm]
      simp [this, List.countP_cons]
    · rw [List.append_eq, Cart.findTitle, List.find?_append]
      have : List.find? (fun it => it.book.title == b.title) c = none := by
        rw [List.find?_eq_none]
        intro it hm
        simp [hno it hm]
      simp [this]
  · intro c b q hq
    have : clampedQty q = clampedQty (some 1) := by
      rcases hq with h | ⟨n, rfl, hn⟩
      · subst h; rfl
      · simp only [clampedQty, parseQty, Option.getD_some]
        omega
    simp only [Cart.add_book, this]

/-- C3: `update_quantity t q` with `q ≤ 0` removes the line for `t` entirely
(no zero quantity remains stored); with `q ≥ 1` and `t` present it overwrites
the stored quantity with `q` (book unchanged); with `t` absent it is a no-op. -/
theorem update_quantity_spec :
    (∀ (c : Cart) (t : String) (n : Int), n ≤ 0 →
      Cart.update_quantity c t (some n)
          = List.filter (fun it => !(it.book.title == t)) c ∧
      Cart.containsTitle (Cart.update_quantity c t (some n)) t = false) ∧
    (∀ (c : Cart) (t : String) (n : Int), 1 ≤ n →
      Cart.findTitle (Cart.update_quantity c t (some n)) t
        = (Cart.findTitle c t).map (fun it => { it with quantity := n })) ∧
    (∀ (c : Cart) (t : String) (q : Option Int),
      Cart.containsTitle c t = false → Cart.update_quantity c t q = c) := by
  refine ⟨?_, ?_, ?_⟩
  · intro c t n hn
    have hq : parseQty (some n) ≤ 0 := by simpa [parseQty] using hn
    by_cases hmem : Cart.containsTitle c t = true
    · have h1 : Cart.update_quantity c t (some n)
          = List.filter (fun it => !(it.book.title == t)) c := by
        simp only [Cart.update_quantity, hmem, if_true, if_pos hq]
      refine ⟨h1, ?_⟩
      rw [h1]
      simp only [Cart.containsTitle, List.any_eq_false]
      intro it hm
      have h2 := (List.mem_filter.mp hm).2
      simp only [Bool.not_eq_eq_eq_not, Bool.not_true] at h2
      simp [h2]
    · have hfalse : Cart.containsTitle c t = false := by
        simpa using hmem
      have hno := (containsTitle_eq_false_iff c t).mp hfalse
      have h1 : Cart.update_quantity c t (some n) = c := by
        simp only [Cart.update_quantity, hfalse, Bool.false_eq_true, if_false]
      rw [h1, filter_eq_self_of_no_match hno]
      exact ⟨rfl, hfalse⟩
  · intro c t n hn
    have hq : ¬ parseQty (some n) ≤ 0 := by
      simp only [parseQty, Option.getD_some]
      omega
    have hq2 : ¬ n ≤ 0 := by omega
    by_cases hmem : Cart.containsTitle c t = true
    · simp only [Cart.update_quantity, hmem, if_true, parseQty, Option.getD_some,
        if_neg hq2]
      exact findTitle_map_set t n c
    · have hfalse : Cart.containsTitle c t = false := by simpa using hmem
      have hno := (containsTitle_eq_false_iff c t).mp hfalse
      have h1 : Cart.update_quantity c t (some n) = c := by
        simp only [Cart.update_quantity, hfalse, Bool.false_eq_true, if_false]
      rw [h1]
      have h2 : Cart.findTitle c t = none := by
        rw [Cart.findTitle, List.find?_eq_none]
        intro it hm
        simp [hno it hm]
      simp [h2]
  · intro c t q h
    simp only [Cart.update_quantity, h, Bool.false_eq_true, if_false]

/-- Closed instance of the accumulation/clamping theorem. -/
theorem add_book_accumulates_and_clamps_witness :
    List.countP (fun it => it.book.title == "b")
        (Cart.add_book (Cart.add_book [] ⟨"b", "c", 2, "i"⟩ (some 2))
          ⟨"b", "c", 2, "i"⟩ (some 3)) = 1 ∧
    Cart.findTitle (Cart.add_book (Cart.add_book [] ⟨"b", "c", 2, "i"⟩ (some 2))
          ⟨"b", "c", 2, "i"⟩ (some 3)) "b" = some ⟨⟨"b", "c", 2, "i"⟩, 5⟩ ∧
    Cart.add_book [] ⟨"b", "c", 2, "i"⟩ (some (-7))
      = Cart.add_book [] ⟨"b", "c", 2, "i"⟩ (some 1) := by
  refine ⟨(add_book_accumulates_and_clamps.1 [] ⟨"b", "c", 2, "i"⟩ 2 3
      (by decide) (by decide) (by decide)).1,
    (add_book_accumulates_and_clamps.1 [] ⟨"b", "c", 2, "i"⟩ 2 3
      (by decide) (by decide) (by decide)).2,
    add_book_accumulates_and_clamps.2 [] ⟨"b", "c", 2, "i"⟩ (some (-7))
      (Or.inr ⟨-7, rfl, by decide⟩)⟩

/-- Closed instance of the update-quantity theorem. -/
theorem update_quantity_spec_witness :
    Cart.update_quantity [⟨⟨"b", "c", 2, "i"⟩, 3⟩] "b" (some 0)
        = List.filter (fun it => !(it.book.title == "b")) [⟨⟨"b", "c", 2, "i"⟩, 3⟩] ∧
    Cart.findTitle (Cart.update_quantity [⟨⟨"b", "c", 2, "i"⟩, 3⟩] "b" (some 7)) "b"
        = some ⟨⟨"b", "c", 2, "i"⟩, 7⟩ ∧
    Cart.update_quantity [⟨⟨"b", "c", 2, "i"⟩, 3⟩] "x" (some 9)
        = [⟨⟨"b", "c", 2, "i"⟩, 3⟩] := by
  refine ⟨(update_quantity_spec.1 [⟨⟨"b", "c", 2, "i"⟩, 3⟩] "b" 0 (by decide)).1, ?_, ?_⟩
  · have h := update_quantity_spec.2.1 [⟨⟨"b", "c", 2, "i"⟩, 3⟩] "b" 7 (by decide)
    rw [h]; decide
  · exact update_quantity_spec.2.2 [⟨⟨"b", "c", 2, "i"⟩, 3⟩] "x" (some 9) (by decide)

theorem clampedQty_ge_one (q : Option Int) : 1 ≤ clampedQty q := by
  simp only [clampedQty]
  split <;> omega

theorem applyOp_preserves_positive {c : Cart} (h : quantitiesPositive c) (op : CartOp) :
    quantitiesPositive (applyOp c op) := by
  cases op with
  | add b q =>
    simp only [applyOp, Cart.add_book]
    have hq := clampedQty_ge_one q
    split
    · intro it hm
      obtain ⟨it0, hm0, rfl⟩ := List.mem_map.mp hm
      have h1 := h it0 hm0
      split
      · show 1 ≤ it0.quantity + clampedQty q
        omega
      · exact h1
    · intro it hm
      rcases List.mem_append.mp hm with hm | hm
      · exact h it hm
      · simp only [List.mem_singleton] at hm
        subst hm
        exact hq
  | update t q =>
    simp only [applyOp, Cart.update_quantity]
    split
    · split
      · intro it hm
        exact h it (List.mem_of_mem_filter hm)
      · rename_i hq
        intro it hm
        obtain ⟨it0, hm0, rfl⟩ := List.mem_map.mp hm
        have h1 := h it0 hm0
        split
        · show 1 ≤ parseQty q
          omega
        · exact h1
    · exact h
  | remove t =>
    intro it hm
    exact h it (List.mem_of_mem_filter hm)
  | clear =>
    intro it hm
    simp [applyOp, Cart.clear] at hm

/-- C6: starting from the empty cart, after any sequence of cart operations
every stored line item has quantity ≥ 1; no operation leaves a stored
quantity of zero or below. -/
theorem cart_quantities_always_ge_one (ops : List CartOp) :
    quantitiesPositive (applyOps ops) := by
  have gen : ∀ (l : List CartOp) (c : Cart), quantitiesPositive c →
      quantitiesPositive (l.foldl applyOp c) := by
    intro l
    induction l with
    | nil => intro c hc; exact hc
    | cons op rest ih =>
      intro c hc
      exact ih (applyOp c op) (applyOp_preserves_positive hc op)
  exact gen ops [] (by intro it hm; simp at hm)

/-- Closed instance of the quantity invariant after a concrete op sequence. -/
theorem cart_quantities_always_ge_one_witness :
    1 ≤ (CartItem.mk ⟨"b", "c", 2, "i"⟩ 5).quantity ∧
    (CartItem.mk ⟨"b", "c", 2, "i"⟩ 5) ∈
      applyOps [.add ⟨"b", "c", 2, "i"⟩ (some 2), .update "b" (some 5)] := by
  have hm : (CartItem.mk ⟨"b", "c", 2, "i"⟩ 5) ∈
      applyOps [.add ⟨"b", "c", 2, "i"⟩ (some 2), .update "b" (some 5)] := by
    decide
  exact ⟨cart_quantities_always_ge_one
    [.add ⟨"b", "c", 2, "i"⟩ (some 2), .update "b" (some 5)] _ hm, hm⟩

theorem get_total_price_append (c d : Cart) :
    Cart.get_total_price (List.append c d)
      = Cart.get_total_price c + Cart.get_total_price d := by
  simp [Cart.get_total_price]

theorem total_map_addQty (f : String → ℚ) (t : String) (a : Int) :
    ∀ c : Cart, PricedBy f c → (cartTitles c).Nodup →
    List.any c (fun it => it.book.title == t) = true →
    Cart.get_total_price
        (List.map (fun it => if it.book.title == t
          then { it with quantity := it.quantity + a } else it) c)
      = Cart.get_total_price c + f t * a := by
  intro c
  induction c with
  | nil =>
    intro _ _ hany
    simp at hany
  | cons x rest ih =>
    intro hp hnd hany
    have hpx : x.book.price = f x.book.title := hp x (List.mem_cons_self _ _)
    have hprest : PricedBy f rest := fun it hm => hp it (List.mem_cons_of_mem _ hm)
    have hndrest : (cartTitles rest).Nodup := by
      simpa [cartTitles] using (List.nodup_cons.mp (by simpa [cartTitles] using hnd)).2
    by_cases hx : x.book.title = t
    · have hnotin : x.book.title ∉ cartTitles rest :=
        (List.nodup_cons.mp (by simpa [cartTitles] using hnd)).1
      have hno : ∀ it ∈ rest, it.book.title ≠ t := by
        intro it hm hcontra
        exact hnotin (by
          rw [hx, ← hcontra] at *
          exact List.mem_map.mpr ⟨it, hm, rfl⟩)
      rw [List.map_cons, if_pos (by simp [hx]), map_eq_self_of_no_match hno]
      simp only [Cart.get_total_price, List.map_cons, List.sum_cons]
      rw [← hx, hpx]
      push_cast
      ring
    · have hanyrest : List.any rest (fun it => it.book.title == t) = true := by
        rcases List.any_eq_true.mp hany with ⟨it, hm, hit⟩
        rcases List.mem_cons.mp hm with rfl | hm
        · simp [hx] at hit
        · exact List.any_eq_true.mpr ⟨it, hm, hit⟩
      rw [List.map_cons, if_neg (by simp [hx])]
      simp only [Cart.get_total_price, List.map_cons, List.sum_cons] at *
      rw [ih hprest hndrest hanyrest]
      ring

theorem add_book_total (f : String → ℚ) {c : Cart} (b : Book) (q : Option Int)
    (hp : PricedBy f c) (hnd : (cartTitles c).Nodup) (hb : b.price = f b.title) :
    Cart.get_total_price (Cart.add_book c b q)
      = Cart.get_total_price c + f b.title * clampedQty q := by
  by_cases hmem : Cart.containsTitle c b.title = true
  · simp only [Cart.add_book, hmem, if_true]
    exact total_map_addQty f b.title (clampedQty q) c hp hnd hmem
  · have hfalse : Cart.containsTitle c b.title = false := by simpa using hmem
    simp only [Cart.add_book, hfalse, Bool.false_eq_true, if_false]
    rw [get_total_price_append]
    simp [Cart.get_total_price, hb]

theorem add_book_pricedBy (f : String → ℚ) {c : Cart} (b : Book) (q : Option Int)
    (hp : PricedBy f c) (hb : b.price = f b.title) :
    PricedBy f (Cart.add_book c b q) := by
  simp only [Cart.add_book]
  split
  · intro it hm
    obtain ⟨it0, hm0, rfl⟩ := List.mem_map.mp hm
    have := hp it0 hm0
    split <;> simpa
  · intro it hm
    rcases List.mem_append.mp hm with hm | hm
    · exact hp it hm
    · simp only [List.mem_singleton] at hm
      subst hm
      exact hb

theorem add_book_titles_nodup {c : Cart} (b : Book) (q : Option Int)
    (hnd : (cartTitles c).Nodup) :
    (cartTitles (Cart.add_book c b q)).Nodup := by
  by_cases hmem : Cart.containsTitle c b.title = true
  · simp only [Cart.add_book, hmem, if_true]
    have : cartTitles (List.map (fun it => if it.book.title == b.title
        then { it with quantity := it.quantity + clampedQty q } else it) c)
        = cartTitles c := by
      simp only [cartTitles, List.map_map]
      apply List.map_congr_left
      intro it _
      simp only [Function.comp]
      split <;> rfl
    rw [this]
    exact hnd
  · have hfalse : Cart.containsTitle c b.title = false := by simpa using hmem
    have hno := (containsTitle_eq_false_iff c b.title).mp hfalse
    simp only [Cart.add_book, hfalse, Bool.false_eq_true, if_false]
    have : cartTitles (List.append c [⟨b, clampedQty q⟩])
        = cartTitles c ++ [b.title] := by
      simp [cartTitles]
    rw [this]
    refine List.Nodup.append hnd (List.nodup_singleton _) ?_
    intro t ht hts
    simp only [List.mem_singleton] at hts
    subst hts
    obtain ⟨it, hm, hit⟩ := List.mem_map.mp ht
    exact hno it hm hit

theorem foldl_add_total (f : String → ℚ) :
    ∀ (ops : List (Book × Option Int)) (c : Cart), PricedBy f c →
    (cartTitles c).Nodup → (∀ p ∈ ops, (p : Book × Option Int).1.price = f p.1.title) →
    Cart.get_total_price (ops.foldl (fun c p => Cart.add_book c p.1 p.2) c)
      = Cart.get_total_price c
        + (ops.map (fun p => f p.1.title * (clampedQty p.2 : ℚ))).sum := by
  intro ops
  induction ops with
  | nil =>
    intro c _ _ _
    simp
  | cons p rest ih =>
    intro c hp hnd hops
    have hb : p.1.price = f p.1.title := hops p (List.mem_cons_self _ _)
    have hrest : ∀ r ∈ rest, (r : Book × Option Int).1.price = f r.1.title :=
      fun r hm => hops r (List.mem_cons_of_mem _ hm)
    simp only [List.foldl_cons]
    rw [ih (Cart.add_book c p.1 p.2) (add_book_pricedBy f p.1 p.2 hp hb)
      (add_book_titles_nodup p.1 p.2 hnd) hrest,
      add_book_total f p.1 p.2 hp hnd hb]
    simp only [List.map_cons, List.sum_cons]
    ring

/-- C1 counterexample: two `add_book` calls with distinct books that share a
title but differ in price give different totals in the two orders, because
an accumulating add keeps the first book's price.  So the total is not
invariant under permuting arbitrary `add_book` calls. -/
theorem cart_total_order_dependent :
    Cart.get_total_price
        (cartOfAdds [(⟨"T", "c", 1, "i"⟩, some 1), (⟨"T", "c", 2, "i"⟩, some 1)])
      ≠ Cart.get_total_price
        (cartOfAdds [(⟨"T", "c", 2, "i"⟩, some 1), (⟨"T", "c", 1, "i"⟩, some 1)]) := by
  norm_num [cartOfAdds, Cart.add_book, Cart.containsTitle, Cart.get_total_price,
    clampedQty, parseQty]

/-- C1 (amended): the cart total is the sum of `price × quantity` over all
line items; and when the books fed to `add_book` are priced consistently by
title (as the catalog's are — title identifies the book there), the total of
the cart built by a list of `add_book` calls is the sum of
`price(title) × clamped quantity` over the calls, hence invariant under any
permutation of those calls. -/
theorem cart_total_sum_and_perm_invariant :
    (∀ c : Cart, Cart.get_total_price c
        = (List.map CartItem.get_total_price c).sum) ∧
    (∀ (f : String → ℚ) (ops : List (Book × Option Int)),
      (∀ p ∈ ops, (p : Book × Option Int).1.price = f p.1.title) →
      Cart.get_total_price (cartOfAdds ops)
          = (ops.map (fun p => f p.1.title * (clampedQty p.2 : ℚ))).sum ∧
      ∀ ops' : List (Book × Option Int), ops.Perm ops' →
        Cart.get_total_price (cartOfAdds ops')
          = Cart.get_total_price (cartOfAdds ops)) := by
  constructor
  · intro c
    rfl
  · intro f ops hops
    have hformula : ∀ (l : List (Book × Option Int)),
        (∀ p ∈ l, (p : Book × Option Int).1.price = f p.1.title) →
        Cart.get_total_price (cartOfAdds l)
          = (l.map (fun p => f p.1.title * (clampedQty p.2 : ℚ))).sum := by
      intro l hl
      have := foldl_add_total f l [] (by intro it hm; simp at hm)
        (by simp [cartTitles]) hl
      simpa [cartOfAdds, Cart.get_total_price] using this
    refine ⟨hformula ops hops, ?_⟩
    intro ops' hperm
    have hops' : ∀ p ∈ ops', (p : Book × Option Int).1.price = f p.1.title :=
      fun p hm => hops p (hperm.mem_iff.mpr hm)
    rw [hformula ops hops, hformula ops' hops']
    exact (hperm.map (fun p => f p.1.title * (clampedQty p.2 : ℚ))).sum_eq.symm

/-- Closed instance of the amended total theorem on a catalog-style price
table and a two-call permutation. -/
theorem cart_total_sum_and_perm_invariant_witness :
    Cart.get_total_price [⟨⟨"A", "c", 2, "i"⟩, 3⟩]
        = (List.map CartItem.get_total_price [⟨⟨"A", "c", 2, "i"⟩, 3⟩]).sum ∧
    Cart.get_total_price
        (cartOfAdds [(⟨"A", "c", 2, "i"⟩, some 1), (⟨"B", "d", 3, "j"⟩, some 2)])
      = (List.map (fun p => (fun t => if t = "A" then (2 : ℚ) else 3) p.1.title
            * (clampedQty p.2 : ℚ))
          [((⟨"A", "c", 2, "i"⟩ : Book), some 1), (⟨"B", "d", 3, "j"⟩, some 2)]).sum ∧
    Cart.get_total_price
        (cartOfAdds [(⟨"B", "d", 3, "j"⟩, some 2), (⟨"A", "c", 2, "i"⟩, some 1)])
      = Cart.get_total_price
        (cartOfAdds [(⟨"A", "c", 2, "i"⟩, some 1), (⟨"B", "d", 3, "j"⟩, some 2)]) := by
  have hops : ∀ p ∈ [((⟨"A", "c", 2, "i"⟩ : Book), (some 1 : Option Int)),
      (⟨"B", "d", 3, "j"⟩, some 2)],
      (p : Book × Option Int).1.price
        = (fun t => if t = "A" then (2 : ℚ) else 3) p.1.title := by
    decide
  refine ⟨cart_total_sum_and_perm_invariant.1 _,
    (cart_total_sum_and_perm_invariant.2 (fun t => if t = "A" then (2 : ℚ) else 3)
      _ hops).1,
    (cart_total_sum_and_perm_invariant.2 (fun t => if t = "A" then (2 : ℚ) else 3)
      _ hops).2 _ ?_⟩
  exact List.Perm.swap _ _ _

/-- C10: a raw password whose stripped form is shorter than 4 characters
(including `None` and `""`) makes `set_password` store the hash of the
fallback `"xxxx"`; afterwards `check_password("xxxx")` succeeds and
`check_password` of the original short password fails. -/
theorem set_password_short_fallback (u : User) (raw : Option String)
    (h : (pyStrip (pyOrEmpty raw)).length < 4) :
    (User.set_password u raw).password_hash = generate_password_hash "xxxx" ∧
    User.check_password (User.set_password u raw) (some "xxxx") = true ∧
    User.check_password (User.set_password u raw) raw = false := by
  have hfb : (User.set_password u raw).password_hash
      = generate_password_hash "xxxx" := by
    simp only [User.set_password, if_pos h]
  refine ⟨hfb, ?_, ?_⟩
  · have hxs : pyStrip (pyOrEmpty (some "xxxx")) = "xxxx" := by decide
    simp only [User.check_password, check_password_hash, hfb, hxs,
      beq_self_eq_true]
  · simp only [User.check_password, check_password_hash, hfb,
      beq_eq_false_iff_ne, ne_eq]
    intro heq
    have hl := congrArg String.length heq
    have h4 : ("xxxx" : String).length = 4 := by decide
    simp only [generate_password_hash, String.length_append, h4] at hl
    omega

/-- Closed instance of the short-password fallback on `" ab "`. -/
theorem set_password_short_fallback_witness :
    (User.set_password (User.make (some "u@e.co") (some "longpw") "N" "A")
        (some " ab ")).password_hash = generate_password_hash "xxxx" ∧
    User.check_password
        (User.set_password (User.make (some "u@e.co") (some "longpw") "N" "A")
          (some " ab ")) (some "xxxx") = true ∧
    User.check_password
        (User.set_password (User.make (some "u@e.co") (some "longpw") "N" "A")
          (some " ab ")) (some " ab ") = false :=
  set_password_short_fallback (User.make (some "u@e.co") (some "longpw") "N" "A")
    (some " ab ") (by decide)

/-- C5: a credit-card payment whose stripped card number ends in `"1111"`
fails with a null transaction id, whatever the other fields — the call
either fails the detail validation or hits the hard-coded rejection, and
both failure results carry `success = False` and `transaction_id = None`. -/
theorem credit_card_rejection_suffix (p : PaymentInfo) (txn : String)
    (hm : pyLower (pyStrip (pyOrEmpty p.payment_method)) = "credit_card")
    (hc : pyEndsWith (pyStrip (pyOrEmpty p.card_number)) "1111" = true) :
    (process_payment p txn).success = false ∧
    (process_payment p txn).transaction_id = none := by
  have h1 : process_payment p txn =
      (if !(valid_card_number (some (pyStrip (pyOrEmpty p.card_number))) &&
            valid_expiry (some (pyStrip (pyOrEmpty p.expiry_date))) &&
            valid_cvv (some (pyStrip (pyOrEmpty p.cvv)))) then
        ⟨false, "Payment failed: invalid card details.", none⟩
      else if pyEndsWith (pyStrip (pyOrEmpty p.card_number)) "1111" then
        ⟨false, "Payment failed: Invalid card number.", none⟩
      else ⟨true, "Payment processed successfully", some txn⟩) := by
    simp [process_payment, hm]
  rw [h1]
  cases hval : valid_card_number (some (pyStrip (pyOrEmpty p.card_number))) &&
      valid_expiry (some (pyStrip (pyOrEmpty p.expiry_date))) &&
      valid_cvv (some (pyStrip (pyOrEmpty p.cvv)))
  · simp
  · simp [hc]

/-- Closed instance: a format-valid card ending in 1111 with valid expiry
and CVV is declined. -/
theorem credit_card_rejection_suffix_witness :
    (process_payment
        ⟨some "credit_card", some "4111 1111 1111 1111", some "12/25",
          some "123", none⟩ "TXN123456").success = false ∧
    (process_payment
        ⟨some "credit_card", some "4111 1111 1111 1111", some "12/25",
          some "123", none⟩ "TXN123456").transaction_id = none :=
  credit_card_rejection_suffix
    ⟨some "credit_card", some "4111 1111 1111 1111", some "12/25",
      some "123", none⟩ "TXN123456" (by decide) (by decide)

/-- C7: submitting the registration form with an email that differs from an
existing account's email only by letter case (hence with the same lowercased
key) is rejected as a duplicate: an error is surfaced and the users mapping
is returned unchanged — no account is created. -/
theorem register_rejects_duplicate_case_insensitive
    (users : UsersMap) (u : User) (e2 pw nm ad : String)
    (hmem : (pyLower u.email, u) ∈ users)
    (hcase : pyLower (pyStrip e2) = pyLower u.email)
    (he : pyStrip e2 ≠ "") (hp : pw ≠ "") (hn : pyStrip nm ≠ "")
    (hv : is_valid_email (some (pyStrip e2)) = true) :
    register users (some e2) (some pw) (some nm) (some ad)
      = (.error "An account with this email already exists.", users) := by
  have hany : users.any (fun kv => kv.1 == pyLower (pyStrip e2)) = true := by
    refine List.any_eq_true.mpr ⟨(pyLower u.email, u), hmem, ?_⟩
    simp [hcase]
  simp [register, sanitize_text, pyOrEmpty, he, hp, hn, hv, hany]

/-- Closed instance: the stored account `User@Example.com` blocks
registration of `user@EXAMPLE.COM`. -/
theorem register_rejects_duplicate_case_insensitive_witness :
    register [("user@example.com", User.make (some "User@Example.com")
        (some "secret1") "N" "")]
        (some "user@EXAMPLE.COM") (some "pw123") (some "M") (some "")
      = (.error "An account with this email already exists.",
         [("user@example.com", User.make (some "User@Example.com")
            (some "secret1") "N" "")]) := by
  have h := register_rejects_duplicate_case_insensitive
    [("user@example.com", User.make (some "User@Example.com") (some "secret1") "N" "")]
    (User.make (some "User@Example.com") (some "secret1") "N" "")
    "user@EXAMPLE.COM" "pw123" "M" ""
    (by decide) (by decide) (by decide) (by decide) (by decide) (by decide)
  exact h

/-- C8 counterexample: a registration with the weak (3-character) password
`"abc"` is NOT rejected — the account is created and stored. -/
theorem register_accepts_weak_password :
    (register [] (some "a@b.com") (some "abc") (some "N") (some "")).1
        = RegisterResult.ok "a@b.com" ∧
    (register [] (some "a@b.com") (some "abc") (some "N") (some "")).2 ≠ [] := by
  decide

/-- C8 (amended): registration rejects an empty or missing password (as a
missing required field), but it does not reject a non-empty weak password:
with an otherwise valid request, a password whose stripped form is shorter
than 4 characters is accepted, the account is created, and its stored
credential is the hash of the fallback `"xxxx"` set by `set_password`. -/
theorem register_weak_password_behavior :
    (∀ (users : UsersMap) (e nm ad pw : Option String),
      pyOrEmpty pw = "" →
      register users e pw nm ad
        = (.error "Please fill in all required fields.", users)) ∧
    (∀ (users : UsersMap) (e pw nm ad : String),
      pyStrip e ≠ "" → pw ≠ "" → pyStrip nm ≠ "" →
      is_valid_email (some (pyStrip e)) = true →
      users.any (fun kv => kv.1 == pyLower (pyStrip e)) = false →
      (pyStrip pw).length < 4 →
      register users (some e) (some pw) (some nm) (some ad)
          = (.ok (pyStrip e),
             users ++ [(pyLower (pyStrip e),
               User.make (some (pyStrip e)) (some pw) (pyStrip nm) (pyStrip ad))]) ∧
      (User.make (some (pyStrip e)) (some pw) (pyStrip nm)
          (pyStrip ad)).password_hash = generate_password_hash "xxxx") := by
  constructor
  · intro users e nm ad pw hpw
    simp [register, hpw]
  · intro users e pw nm ad he hp hn hv hdup hshort
    constructor
    · simp [register, sanitize_text, pyOrEmpty, he, hp, hn, hv, hdup]
    · have hs : pyStrip (pyOrEmpty (some pw)) = pyStrip pw := rfl
      simp only [User.make, User.set_password, hs, if_pos hshort]

/-- Closed instance of the amended registration behaviour. -/
theorem register_weak_password_behavior_witness :
    register [] (some "x@y.com") none (some "N") (some "")
        = (.error "Please fill in all required fields.", []) ∧
    register [] (some "a@b.com") (some "abc") (some "N") (some "")
        = (.ok "a@b.com",
           [("a@b.com", User.make (some "a@b.com") (some "abc") "N" "")]) ∧
    (User.make (some "a@b.com") (some "abc") "N" "").password_hash
        = generate_password_hash "xxxx" := by
  have h1 := register_weak_password_behavior.1 [] (some "x@y.com") (some "N")
    (some "") none (by decide)
  have h2 := register_weak_password_behavior.2 [] "a@b.com" "abc" "N" ""
    (by decide) (by decide) (by decide) (by decide) (by decide) (by decide)
  refine ⟨h1, ?_, ?_⟩
  · have hstr : pyStrip "a@b.com" = "a@b.com" := by decide
    have hstr2 : pyStrip "N" = "N" := by decide
    have hstr3 : pyStrip "" = "" := by decide
    have hlow2 : pyLower "a@b.com" = "a@b.com" := by decide
    rw [h2.1, hstr, hstr2, hstr3, hlow2]
    rfl
  · have hstr : pyStrip "a@b.com" = "a@b.com" := by decide
    have hstr2 : pyStrip "N" = "N" := by decide
    have hstr3 : pyStrip "" = "" := by decide
    have := h2.2
    rwa [hstr, hstr2, hstr3] at this

theorem process_payment_success_txn (p : PaymentInfo) (txn : String)
    (h : (process_payment p txn).success = true) :
    (process_payment p txn).transaction_id = some txn := by
  unfold process_payment at h ⊢
  all_goals simp_all
  all_goals (repeat' split) <;> simp_all

theorem checkout_after_shipping_structure (st : AppState)
    (sess : Option String) (form : CheckoutForm) (oid txn : String) (now : Nat)
    (d : ℚ × List String) :
    ((checkout_after_shipping st sess form oid txn now d).outcome.isFailure = true ∧
     (checkout_after_shipping st sess form oid txn now d).state = st) ∨
    (checkout_after_shipping st sess form oid txn now d =
      ⟨.success oid,
       ⟨users_after_order st.users sess (checkout_order st form oid (some txn) now d.1),
        st.orders ++ [(oid, checkout_order st form oid (some txn) now d.1)],
        Cart.clear st.cart⟩,
       d.2 ++ ["Payment successful! Your order has been confirmed."]⟩) := by
  unfold checkout_after_shipping
  cases checkout_validate_payment form with
  | some msg => exact Or.inl ⟨rfl, rfl⟩
  | none =>
    by_cases hps : (process_payment (checkout_payment_info form) txn).success = true
    · right
      have htxn := process_payment_success_txn (checkout_payment_info form) txn hps
      simp only [hps, htxn, if_true]
    · left
      have hf : (process_payment (checkout_payment_info form) txn).success = false := by
        simpa using hps
      simp only [hf, Bool.false_eq_true, if_false]
      exact ⟨rfl, trivial⟩

theorem process_checkout_structure (st : AppState) (sess : Option String)
    (form : CheckoutForm) (oid txn : String) (now : Nat) :
    ((process_checkout st sess form oid txn now).outcome.isFailure = true ∧
     (process_checkout st sess form oid txn now).state = st) ∨
    (process_checkout st sess form oid txn now =
      ⟨.success oid,
       ⟨users_after_order st.users sess
          (checkout_order st form oid (some txn) now
            (apply_discount (pyUpper (pyStrip (pyOrEmpty form.discount_code)))
              (Cart.get_total_price st.cart)).1),
        st.orders ++ [(oid, checkout_order st form oid (some txn) now
            (apply_discount (pyUpper (pyStrip (pyOrEmpty form.discount_code)))
              (Cart.get_total_price st.cart)).1)],
        Cart.clear st.cart⟩,
       (apply_discount (pyUpper (pyStrip (pyOrEmpty form.discount_code)))
          (Cart.get_total_price st.cart)).2
         ++ ["Payment successful! Your order has been confirmed."]⟩) := by
  unfold process_checkout
  cases checkout_validate_shipping st form with
  | some msg => exact Or.inl ⟨rfl, rfl⟩
  | none => exact checkout_after_shipping_structure st sess form oid txn now _

/-- C9: checkout is atomic on failure — whenever the request ends in a
failure redirect (any validation failure or a gateway decline), the shared
state (users, orders, cart) is exactly what it was before the request. -/
theorem checkout_atomic_on_failure (st : AppState) (sess : Option String)
    (form : CheckoutForm) (oid txn : String) (now : Nat) (msg : String)
    (h : (process_checkout st sess form oid txn now).outcome = .failure msg) :
    (process_checkout st sess form oid txn now).state = st := by
  rcases process_checkout_structure st sess form oid txn now with ⟨_, hst⟩ | heq
  · exact hst
  · rw [heq] at h
    exact absurd h (by simp)

/-- Closed instance: checking out an empty cart fails and leaves the state
unchanged. -/
theorem checkout_atomic_on_failure_witness :
    (process_checkout ⟨[], [], []⟩ none
        ⟨none, none, none, none, none, none, none, none, none, none, none⟩
        "OID" "TXN" 0).outcome = .failure "Your cart is empty!" ∧
    (process_checkout ⟨[], [], []⟩ none
        ⟨none, none, none, none, none, none, none, none, none, none, none⟩
        "OID" "TXN" 0).state = ⟨[], [], []⟩ := by
  refine ⟨by decide, checkout_atomic_on_failure ⟨[], [], []⟩ none
    ⟨none, none, none, none, none, none, none, none, none, none, none⟩
    "OID" "TXN" 0 "Your cart is empty!" (by decide)⟩

theorem checkout_after_shipping_outcome_indep (st : AppState)
    (sess : Option String) (form : CheckoutForm) (oid txn : String) (now : Nat)
    (d d' : ℚ × List String) :
    (checkout_after_shipping st sess form oid txn now d).outcome
      = (checkout_after_shipping st sess form oid txn now d').outcome := by
  unfold checkout_after_shipping
  cases checkout_validate_payment form with
  | some msg => rfl
  | none =>
    by_cases hps : (process_payment (checkout_payment_info form) txn).success = true
    · simp only [hps, if_true]
    · have hf : (process_payment (checkout_payment_info form) txn).success = false := by
        simpa using hps
      simp only [hf, Bool.false_eq_true, if_false]

/-- C4: the discount code `SAVE10` (after stripping and upper-casing, so in
any letter case with surrounding whitespace) makes the recorded order total
exactly 90% of the cart total; an unrecognized non-empty code leaves the
recorded order total equal to the undiscounted cart total, only flashes the
non-blocking `Invalid discount code.` warning on the way, and never changes
whether the checkout succeeds or fails. -/
theorem discount_code_behavior (st : AppState) (sess : Option String)
    (form : CheckoutForm) (oid txn : String) (now : Nat) :
    (pyUpper (pyStrip (pyOrEmpty form.discount_code)) = "SAVE10" →
      ∀ ord : Order,
        (oid, ord) ∈ (process_checkout st sess form oid txn now).state.orders →
        (oid, ord) ∉ st.orders →
        ord.total_amount = Cart.get_total_price st.cart * (9 / 10)) ∧
    (DISCOUNTS (pyUpper (pyStrip (pyOrEmpty form.discount_code))) = none →
      pyUpper (pyStrip (pyOrEmpty form.discount_code)) ≠ "" →
      (∀ ord : Order,
        (oid, ord) ∈ (process_checkout st sess form oid txn now).state.orders →
        (oid, ord) ∉ st.orders →
        ord.total_amount = Cart.get_total_price st.cart) ∧
      ((process_checkout st sess form oid txn now).outcome = .success oid →
        "Invalid discount code." ∈ (process_checkout st sess form oid txn now).flashes)) ∧
    (∀ dc : Option String,
      (process_checkout st sess { form with discount_code := dc } oid txn now).outcome
        = (process_checkout st sess form oid txn now).outcome) := by
  refine ⟨?_, ?_, ?_⟩
  · intro hcode ord hmem hnot
    rcases process_checkout_structure st sess form oid txn now with ⟨_, hst⟩ | heq
    · rw [hst] at hmem
      exact absurd hmem hnot
    · rw [heq] at hmem
      simp only at hmem
      rcases List.mem_append.mp hmem with hmem | hmem
      · exact absurd hmem hnot
      · simp only [List.mem_singleton, Prod.mk.injEq] at hmem
        rw [hmem.2, hcode]
        have hd : apply_discount "SAVE10" (Cart.get_total_price st.cart)
            = (Cart.get_total_price st.cart
                - Cart.get_total_price st.cart * (1 / 10),
               ["Discount applied!"]) := by
          rfl
        rw [hd]
        show Cart.get_total_price st.cart
            - Cart.get_total_price st.cart * (1 / 10)
          = Cart.get_total_price st.cart * (9 / 10)
        ring
  · intro hnone hne
    have hdz : apply_discount (pyUpper (pyStrip (pyOrEmpty form.discount_code)))
        (Cart.get_total_price st.cart)
        = (Cart.get_total_price st.cart, ["Invalid discount code."]) := by
      simp [apply_discount, hne, hnone]
    constructor
    · intro ord hmem hnot
      rcases process_checkout_structure st sess form oid txn now with ⟨_, hst⟩ | heq
      · rw [hst] at hmem
        exact absurd hmem hnot
      · rw [heq] at hmem
        simp only at hmem
        rcases List.mem_append.mp hmem with hmem | hmem
        · exact absurd hmem hnot
        · simp only [List.mem_singleton, Prod.mk.injEq] at hmem
          rw [hmem.2, hdz]
          rfl
    · intro hsucc
      rcases process_checkout_structure st sess form oid txn now with ⟨hfail, _⟩ | heq
      · rw [hsucc] at hfail
        simp [CheckoutOutcome.isFailure] at hfail
      · rw [heq]
        simp only [hdz]
        simp
  · intro dc
    have h1 : checkout_validate_shipping st { form with discount_code := dc }
        = checkout_validate_shipping st form := rfl
    unfold process_checkout
    rw [h1]
    cases checkout_validate_shipping st form with
    | some msg => rfl
    | none =>
      have h2 : ∀ e : ℚ × List String,
          checkout_after_shipping st sess { form with discount_code := dc } oid txn now e
            = checkout_after_shipping st sess form oid txn now e := fun e => rfl
      rw [h2]
      exact checkout_after_shipping_outcome_indep st sess form oid txn now _ _

theorem c4_eval (dc : Option String) :
    process_checkout c4State none (c4Form dc) "OID" "TXN" 0
      = ⟨.success "OID",
         ⟨[], [("OID", c4Order
            (apply_discount (pyUpper (pyStrip (pyOrEmpty dc))) 20).1)], []⟩,
         (apply_discount (pyUpper (pyStrip (pyOrEmpty dc))) 20).2
           ++ ["Payment successful! Your order has been confirmed."]⟩ := by
  have ht0 : Cart.get_total_price c4State.cart = 20 := by
    norm_num [Cart.get_total_price, c4State]
  have hA : checkout_validate_shipping c4State (c4Form dc) = none := rfl
  have hB : checkout_validate_payment (c4Form dc) = none := rfl
  have hC : process_payment (checkout_payment_info (c4Form dc)) "TXN"
      = ⟨true, "Payment processed successfully", some "TXN"⟩ := rfl
  unfold process_checkout checkout_after_shipping
  simp only [hA, hB, hC, ht0]
  rfl

/-- Closed instance of the discount behaviour: `" save10 "` gives an order
total of 90% of the cart total, `"bogus"` leaves it unchanged and flashes
the warning while the checkout still succeeds, and the outcome never
depends on the discount code. -/
theorem discount_code_behavior_witness :
    (c4Order 18).total_amount = Cart.get_total_price c4State.cart * (9 / 10) ∧
    (c4Order 20).total_amount = Cart.get_total_price c4State.cart ∧
    "Invalid discount code."
      ∈ (process_checkout c4State none (c4Form (some "bogus")) "OID" "TXN" 0).flashes ∧
    (process_checkout c4State none (c4Form (some "xyz")) "OID" "TXN" 0).outcome
      = (process_checkout c4State none (c4Form none) "OID" "TXN" 0).outcome := by
  have hX1 : (apply_discount (pyUpper (pyStrip (pyOrEmpty (some " save10 "))))
      (20 : ℚ)).1 = 18 := by
    rw [show pyUpper (pyStrip (pyOrEmpty (some " save10 "))) = "SAVE10" by decide]
    rw [show apply_discount "SAVE10" (20 : ℚ)
        = (20 - 20 * (1 / 10), ["Discount applied!"]) from rfl]
    norm_num
  have hX2 : (apply_discount (pyUpper (pyStrip (pyOrEmpty (some "bogus"))))
      (20 : ℚ)).1 = 20 := by
    rw [show pyUpper (pyStrip (pyOrEmpty (some "bogus"))) = "BOGUS" by decide]
    rfl
  refine ⟨?_, ?_, ?_, ?_⟩
  · refine (discount_code_behavior c4State none (c4Form (some " save10 "))
      "OID" "TXN" 0).1 (by decide) (c4Order 18) ?_ (by decide)
    simp [c4_eval (some " save10 "), hX1]
  · have h2 := (discount_code_behavior c4State none (c4Form (some "bogus"))
      "OID" "TXN" 0).2.1 (by decide) (by decide)
    refine h2.1 (c4Order 20) ?_ (by decide)
    simp [c4_eval (some "bogus"), hX2]
  · have h2 := (discount_code_behavior c4State none (c4Form (some "bogus"))
      "OID" "TXN" 0).2.1 (by decide) (by decide)
    exact h2.2 (by rw [c4_eval (some "bogus")])
  · have h3 := (discount_code_behavior c4State none (c4Form none)
      "OID" "TXN" 0).2.2 (some "xyz")
    rw [show ({ c4Form none with discount_code := some "xyz" } : CheckoutForm)
        = c4Form (some "xyz") from rfl] at h3
    exact h3
